import Mathlib

/-!
Shallow embedding of the Alliage documentation site's homepage components
(`src/components/HomepageFeatures/index.tsx` and `src/pages/index.tsx`).
React markup is modelled as a tree of nodes; a React component becomes a
Lean function from its props to the node it returns; CSS-module classes
become opaque string constants; the `clsx` helper is modelled at the call
shapes used by the source (a single class string, two class strings).
-/

namespace Alliage

/-- Markup produced by a render: an element with a tag, attributes
(props) and children, or a text node. -/
inductive Node where
  | element (tag : String) (attrs : List (String × String)) (children : List Node)
  | text (s : String)

/-- `clsx` applied to one class string (the only unary call shape in the
source) returns that string. -/
def clsx (c : String) : String := c

/-- `clsx` applied to two class strings joins them with a space. -/
def clsx2 (a b : String) : String := a ++ " " ++ b

/-- The `FeatureItem` record: `title`, `Svg` (the icon asset reference fed
to `require`), `description` (rich text, modelled as its text). -/
structure FeatureItem where
  title : String
  Svg : String
  description : String
  deriving DecidableEq

/-- CSS-module class `styles.featureSvg` of the feature component. -/
def stylesFeatureSvg : String := "featureSvg"

/-- CSS-module class `styles.features` of the feature section. -/
def stylesFeatures : String := "features"

/-- CSS-module class `styles.heroBanner` of the homepage hero. -/
def stylesHeroBanner : String := "heroBanner"

/-- CSS-module class `styles.buttons` of the homepage hero. -/
def stylesButtons : String := "buttons"

/-- The constant `FeatureList` defined in the component's source. -/
def FeatureList : List FeatureItem :=
  [ { title := "Accessible by design",
      Svg := "@site/static/img/undraw_road-to-knowledge_f9zn.svg",
      description := "Alliage doesn't drown you in complex patterns or overwhelming concepts. It provides all the tools to follow best practices like SOLID principles and clean architecture, but makes them feel natural and effortless." },
    { title := "Testing-driven from the ground up",
      Svg := "@site/static/img/undraw_scientist_5td0.svg",
      description := "Testing isn't an afterthought—it's built into Alliage's DNA. Dependency injection makes each piece of code independent and easily testable, while our sandbox environment lets you run integration tests in complete isolation." },
    { title := "Configuration that just works",
      Svg := "@site/static/img/undraw_active-options_et7o.svg",
      description := "Keep your configuration outside your code where it belongs, while making it seamlessly permeable to different environments. No more hardcoded values or configuration chaos." } ]

/-- The `Feature` component: one cell. A `div.col.col--4` holding a
centered icon block (the item's `Svg` component rendered with
`className={styles.featureSvg}` and `role="img"`) and then a centered text
block with an `h3` title and a `p` description. -/
def Feature (it : FeatureItem) : Node :=
  Node.element "div" [("className", clsx "col col--4")]
    [ Node.element "div" [("className", "text--center")]
        [ Node.element it.Svg [("className", stylesFeatureSvg), ("role", "img")] [] ],
      Node.element "div" [("className", "text--center padding-horiz--md")]
        [ Node.element "h3" [] [Node.text it.title],
          Node.element "p" [] [Node.text it.description] ] ]

/-- The keyed cells built by `FeatureList.map((props, idx) => <Feature
key={idx} {...props} />)`: each cell paired with its React key, the index. -/
def keyedCells (items : List FeatureItem) : List (Nat × Node) :=
  items.enum.map (fun p => (p.1, Feature p.2))

/-- The `HomepageFeatures` component generalised over the list it maps
(the source always passes `FeatureList`): a `section` holding a
`div.container` holding a `div.row` of the keyed cells. -/
def HomepageFeaturesWith (items : List FeatureItem) : Node :=
  Node.element "section" [("className", stylesFeatures)]
    [ Node.element "div" [("className", "container")]
        [ Node.element "div" [("className", "row")] ((keyedCells items).map Prod.snd) ] ]

/-- The `HomepageFeatures` component itself, rendering `FeatureList`. -/
def HomepageFeatures : Node := HomepageFeaturesWith FeatureList

/-- The cells inside the section's container's row of a feature-section
node (the inverse observation on the produced markup). -/
def featureRowCells : Node → List Node
  | Node.element _ _ [Node.element _ _ [Node.element _ _ cells]] => cells
  | _ => []

/-- The `className` attribute at the root of a markup node. -/
def rootClassName : Node → Option String
  | Node.element _ attrs _ => attrs.lookup "className"
  | Node.text _ => none

/-- An atomic piece of serialized markup, in document order. -/
inductive Piece where
  | openTag (tag : String) (attrs : List (String × String))
  | closeTag (tag : String)
  | textPiece (s : String)
  deriving DecidableEq

mutual

/-- Document-order serialization of a node. -/
def render : Node → List Piece
  | Node.element t a cs => Piece.openTag t a :: (renderList cs ++ [Piece.closeTag t])
  | Node.text s => [Piece.textPiece s]

/-- Document-order serialization of a list of sibling nodes. -/
def renderList : List Node → List Piece
  | [] => []
  | c :: cs => render c ++ renderList cs

end

/-- The site configuration fields `index.tsx` reads through
`useDocusaurusContext`. -/
structure SiteConfig where
  title : String
  tagline : String
  deriving DecidableEq

/-- `useBaseUrl` with the site's root base URL leaves the path unchanged. -/
def useBaseUrl (p : String) : String := p

/-- The `HomepageHeader` component of `src/pages/index.tsx`: a hero header
with the themed logo, the site tagline, and the Get started link to
`/docs/intro`. -/
def HomepageHeader (cfg : SiteConfig) : Node :=
  Node.element "header" [("className", clsx2 "hero hero--primary" stylesHeroBanner)]
    [ Node.element "div" [("className", "container")]
        [ Node.element "ThemedImage"
            [ ("alt", "Alliage logo"),
              ("sources.light", useBaseUrl "/img/alliage-logo-light.svg"),
              ("sources.dark", useBaseUrl "/img/alliage-logo-dark.svg"),
              ("width", "500") ] [],
          Node.element "p"
            [ ("className", "hero__subtitle"),
              ("style", "margin-top:2rem;margin-bottom:2rem") ]
            [Node.text cfg.tagline],
          Node.element "div" [("className", stylesButtons)]
            [ Node.element "Link"
                [ ("className", "button button--secondary button--lg"),
                  ("to", "/docs/intro") ]
                [Node.text "Get started"] ] ] ]

/-- The `Home` page component: a `Layout` wrapping the hero header and
then a `main` element holding `HomepageFeatures`. -/
def Home (cfg : SiteConfig) : Node :=
  Node.element "Layout"
    [ ("title", cfg.title),
      ("description", "Build applications with proper dependency injection, clean architecture, and testing built in from the start") ]
    [ HomepageHeader cfg,
      Node.element "main" [] [HomepageFeatures] ]

/-- Modelled from the spec: the build-time asset resolution done by the
external site generator, absent from this repository's sources ("missing
asset file → build-time error", "Missing icon reference causes a
build-time failure, not a silent render"). The build resolves every
item's `Svg` reference against the available assets; the first unresolved
reference aborts the build with an error and no markup is produced,
otherwise the build emits the rendered feature section. -/
def buildFeatureSection (assets : List String) (items : List FeatureItem) :
    Except String Node :=
  match items.find? (fun it => !(assets.contains it.Svg)) with
  | some it => Except.error ("Cannot resolve module " ++ it.Svg)
  | none => Except.ok (HomepageFeaturesWith items)

/-- The program's runtime state relevant to the feature section: the
feature list it renders from. -/
structure SiteState where
  featureList : List FeatureItem

/-- The state at load time: the list defined in source. -/
def initState : SiteState := ⟨FeatureList⟩

/-- One render observed as a state transition: it reads the feature list
and produces markup; the source contains no assignment, so the state is
returned unchanged. -/
def renderStep (s : SiteState) : Node × SiteState :=
  (HomepageFeaturesWith s.featureList, s)

/-- `n` successive renders from a state: the produced markups and the
final state. -/
def runRenders : Nat → SiteState → List Node × SiteState
  | 0, s => ([], s)
  | n + 1, s =>
    let r := renderStep s
    let rest := runRenders n r.2
    (r.1 :: rest.1, rest.2)

/-- The keys of the keyed cells over any suffix numbering are the indices
the numbering starts from. -/
theorem enumFrom_keyed_fst (n : Nat) (l : List FeatureItem) :
    ((List.enumFrom n l).map (fun p => (p.1, Feature p.2))).map Prod.fst =
      List.range' n l.length := by
  induction l generalizing n with
  | nil => rfl
  | cons x xs ih => simp [List.enumFrom, List.range', ih]

/-- Dropping the keys of the keyed cells over any suffix numbering gives
the plain rendered cells. -/
theorem enumFrom_keyed_snd (n : Nat) (l : List FeatureItem) :
    ((List.enumFrom n l).map (fun p => (p.1, Feature p.2))).map Prod.snd =
      l.map Feature := by
  induction l generalizing n with
  | nil => rfl
  | cons x xs ih => simp [List.enumFrom, ih]

/-- The keys assigned by `keyedCells` are `0..N-1`. -/
theorem keyedCells_fst (items : List FeatureItem) :
    (keyedCells items).map Prod.fst = List.range items.length := by
  rw [keyedCells, List.enum, enumFrom_keyed_fst, List.range_eq_range']

/-- The cells of `keyedCells`, keys dropped, are the items rendered in
order. -/
theorem keyedCells_snd (items : List FeatureItem) :
    (keyedCells items).map Prod.snd = items.map Feature := by
  rw [keyedCells, List.enum, enumFrom_keyed_snd]

/-- The row of the rendered feature section holds exactly the cells of the
input items, in order. -/
theorem featureRowCells_eq (items : List FeatureItem) :
    featureRowCells (HomepageFeaturesWith items) = items.map Feature := by
  rw [HomepageFeaturesWith, featureRowCells, keyedCells_snd]

/-- C1: for every list of `FeatureItem` values of length N, the feature
section rendered by `HomepageFeatures` over that list contains exactly N
cells, and the i-th cell is the rendering of the i-th input item, so the
cells appear in input order. -/
theorem homepageFeatures_cell_count_and_order (items : List FeatureItem) :
    (featureRowCells (HomepageFeaturesWith items)).length = items.length ∧
    ∀ i : Nat,
      (featureRowCells (HomepageFeaturesWith items)).get? i =
        (items.get? i).map Feature := by
  rw [featureRowCells_eq]
  refine ⟨items.length_map Feature, fun i => ?_⟩
  rw [List.get?_eq_getElem?, List.get?_eq_getElem?, List.getElem?_map]

/-- C2: in the markup of the cell `Feature` produces for any item, the
item's icon appears strictly before its title, which appears strictly
before its description, in document order. -/
theorem feature_icon_title_description_order (it : FeatureItem) :
    ∃ i j k : Nat, i < j ∧ j < k ∧
      (render (Feature it)).get? i =
        some (Piece.openTag it.Svg [("className", stylesFeatureSvg), ("role", "img")]) ∧
      (render (Feature it)).get? j = some (Piece.textPiece it.title) ∧
      (render (Feature it)).get? k = some (Piece.textPiece it.description) := by
  refine ⟨2, 7, 10, by omega, by omega, ?_, ?_, ?_⟩ <;>
    simp [render, renderList, Feature]

/-- C3: for every item list, the feature section is a single `row`
container (inside the section's `container`) whose cells are exactly the
`Feature` cells, and every cell carries the three-column grid class
`col col--4` at its root. -/
theorem homepageFeatures_three_column_layout (items : List FeatureItem) :
    HomepageFeaturesWith items =
      Node.element "section" [("className", stylesFeatures)]
        [ Node.element "div" [("className", "container")]
            [ Node.element "div" [("className", "row")] (items.map Feature) ] ] ∧
    (items.map Feature).all
      (fun c => rootClassName c == some (clsx "col col--4")) = true := by
  constructor
  · rw [HomepageFeaturesWith, keyedCells_snd]
  · rw [List.all_eq_true]
    intro c hc
    obtain ⟨it, _, rfl⟩ := List.mem_map.mp hc
    rfl

/-- C4: rendering the feature section is deterministic: any two markups
obtained by running the renderer on the same input list are equal. -/
theorem homepageFeatures_deterministic (items : List FeatureItem)
    (m₁ m₂ : Node)
    (h₁ : m₁ = HomepageFeaturesWith items)
    (h₂ : m₂ = HomepageFeaturesWith items) : m₁ = m₂ :=
  h₁.trans h₂.symm

/-- C4 witness: two runs of the renderer on `FeatureList` yield the same
markup. -/
theorem homepageFeatures_deterministic_witness :
    HomepageFeatures = HomepageFeatures :=
  homepageFeatures_deterministic FeatureList HomepageFeatures HomepageFeatures
    rfl rfl

/-- C5: under the build-time precondition that every item's icon resolves,
the build of the feature section never fails — it returns exactly the pure
rendering of the items — and a render leaves the program state unchanged
(no side effects). -/
theorem homepageFeatures_total_pure (assets : List String)
    (items : List FeatureItem)
    (h : items.all (fun it => assets.contains it.Svg) = true) :
    buildFeatureSection assets items = Except.ok (HomepageFeaturesWith items) ∧
    (renderStep ⟨items⟩).2 = ⟨items⟩ := by
  refine ⟨?_, rfl⟩
  rw [buildFeatureSection]
  have hnone : items.find? (fun it => !(assets.contains it.Svg)) = none := by
    rw [List.find?_eq_none]
    intro x hx
    rw [List.all_eq_true] at h
    rw [h x hx]
    decide
  rw [hnone]

/-- C5 witness: with all three icon assets present, building the concrete
`FeatureList` succeeds with the pure rendering and the render leaves the
state unchanged. -/
theorem homepageFeatures_total_pure_witness :
    buildFeatureSection
        [ "@site/static/img/undraw_road-to-knowledge_f9zn.svg",
          "@site/static/img/undraw_scientist_5td0.svg",
          "@site/static/img/undraw_active-options_et7o.svg" ] FeatureList =
      Except.ok (HomepageFeaturesWith FeatureList) ∧
    (renderStep ⟨FeatureList⟩).2 = ⟨FeatureList⟩ :=
  homepageFeatures_total_pure _ FeatureList (by decide)

/-- C6: if some item's icon reference does not resolve against the
available assets, the build fails; it never returns markup. -/
theorem missing_icon_fails_build (assets : List String)
    (items : List FeatureItem)
    (h : items.all (fun it => assets.contains it.Svg) = false) :
    (buildFeatureSection assets items).isOk = false := by
  rw [buildFeatureSection]
  obtain ⟨x, hx, hpx⟩ := List.all_eq_false.mp h
  have hsome : (items.find? (fun it => !(assets.contains it.Svg))).isSome := by
    rw [List.find?_isSome]
    refine ⟨x, hx, ?_⟩
    rw [Bool.not_eq_true] at hpx
    rw [hpx]
    decide
  obtain ⟨it, hit⟩ := Option.isSome_iff_exists.mp hsome
  rw [hit]
  rfl

/-- C6 witness: with no assets available, building the concrete
`FeatureList` fails. -/
theorem missing_icon_fails_build_witness :
    FeatureList.all (fun it => List.contains ([] : List String) it.Svg) = false ∧
    (buildFeatureSection [] FeatureList).isOk = false :=
  ⟨by decide, missing_icon_fails_build [] FeatureList (by decide)⟩

/-- C7: the feature list is immutable: however many renders run from the
initial state, the final state is the initial state, the list observed is
the list defined in source, and every produced markup is the rendering of
that source list. -/
theorem featureList_immutable (n : Nat) :
    (runRenders n initState).2 = initState ∧
    (runRenders n initState).2.featureList = FeatureList ∧
    ∀ m ∈ (runRenders n initState).1, m = HomepageFeaturesWith FeatureList := by
  induction n with
  | zero => exact ⟨rfl, rfl, by intro m hm; cases hm⟩
  | succ k ih =>
    obtain ⟨h₁, h₂, h₃⟩ := ih
    refine ⟨h₁, h₂, ?_⟩
    intro m hm
    rw [runRenders] at hm
    rcases List.mem_cons.mp hm with h | h
    · exact h
    · exact h₃ m h

/-- C8: the concrete `FeatureList` has exactly three items, is non-empty,
and its titles are the three expected ones in order. -/
theorem featureList_concrete :
    FeatureList.length = 3 ∧ FeatureList ≠ [] ∧
    FeatureList.map FeatureItem.title =
      [ "Accessible by design",
        "Testing-driven from the ground up",
        "Configuration that just works" ] := by
  refine ⟨rfl, by decide, rfl⟩

/-- C9: the React keys `HomepageFeatures` assigns to its cells are exactly
the indices `0..N-1` of the input list, and they contain no duplicate, so
distinct cells have distinct keys. -/
theorem homepageFeatures_keys_distinct (items : List FeatureItem) :
    (keyedCells items).map Prod.fst = List.range items.length ∧
    ((keyedCells items).map Prod.fst).Nodup := by
  refine ⟨keyedCells_fst items, ?_⟩
  rw [keyedCells_fst items]
  exact List.nodup_range items.length

/-- C10: for every site configuration, the Home page's markup opens the
hero header strictly before the `main` element; the tagline text and the
Get started link targeting `/docs/intro` (with its `Get started` text) lie
inside that header span, and the feature section opens inside `main`,
after it. -/
theorem home_header_precedes_features (cfg : SiteConfig) :
    ∃ i t l g j f : Nat,
      i < t ∧ t < j ∧ i < l ∧ l < g ∧ g < j ∧ i < j ∧ j < f ∧
      (render (Home cfg)).get? i =
        some (Piece.openTag "header"
          [("className", clsx2 "hero hero--primary" stylesHeroBanner)]) ∧
      (render (Home cfg)).get? t = some (Piece.textPiece cfg.tagline) ∧
      (render (Home cfg)).get? l =
        some (Piece.openTag "Link"
          [ ("className", "button button--secondary button--lg"),
            ("to", "/docs/intro") ]) ∧
      (render (Home cfg)).get? g = some (Piece.textPiece "Get started") ∧
      (render (Home cfg)).get? j = some (Piece.openTag "main" []) ∧
      (render (Home cfg)).get? f =
        some (Piece.openTag "section" [("className", stylesFeatures)]) := by
  refine ⟨1, 6, 9, 10, 15, 16, by omega, by omega, by omega, by omega, by omega,
    by omega, by omega, ?_, ?_, ?_, ?_, ?_, ?_⟩ <;>
    simp [render, renderList, Home, HomepageHeader, HomepageFeatures,
      HomepageFeaturesWith, keyedCells, FeatureList, Feature]

end Alliage
